import Mathlib

/-!
Verification of `scripts/tick_my_feedstocks.py`: a shallow embedding of the
recipe model (`Feedstock_Meta_Yaml`), the patch engine (`basic_patch`), the
checksum resolver tiers (`pypi_legacy_json_sha`, `pypi_sha`), the
independent-subset selector and the per-candidate orchestration step of
`tick_feedstocks`, together with theorems settling the specified properties.

Python strings are modelled as Lean `String`; the string primitives the
script relies on (`str.find`, `str.split`, `str.replace`, slicing) are
re-implemented below by structural recursion over the character list so that
every definition evaluates inside the kernel.
-/

/-- Decides whether `pat` occurs as a contiguous substring of `t` (both given
as character lists).  An empty `pat` occurs in every list. -/
def listContains : List Char → List Char → Bool
  | t@(_ :: rest), pat => pat.isPrefixOf t || listContains rest pat
  | [], pat => pat.isEmpty

/-- Models the Python test `text.find(pat) >= 0`, i.e. `pat` occurs somewhere
in `text`. -/
def pyFindFound (text pat : String) : Bool :=
  listContains text.toList pat.toList

/-- Fuel-indexed worker for `pySplitOn`: splits `t` at every occurrence of the
(non-empty) separator `sep`, accumulating the current segment in `acc`
(reversed).  The fuel starts at the length of the list and decreases by one on
every call, while each call consumes at least one character, so the fuel never
runs out on the initial call. -/
def splitOnFuel (sep : List Char) : Nat → List Char → List Char → List (List Char)
  | 0, t, acc => [acc.reverse ++ t]
  | fuel + 1, t, acc =>
    match t with
    | [] => [acc.reverse]
    | c :: rest =>
      if sep ≠ [] && sep.isPrefixOf t then
        acc.reverse :: splitOnFuel sep fuel (t.drop sep.length) []
      else
        splitOnFuel sep fuel rest (c :: acc)

/-- Models Python `s.split(sep)` for a non-empty string separator (the only
way the script uses it): the list of segments of `s` between occurrences of
`sep`, leftmost-first, keeping empty segments. -/
def pySplitOn (s sep : String) : List String :=
  (splitOnFuel sep.toList s.toList.length s.toList []).map String.mk

/-- Models Python `s.replace(old, new)` for a non-empty `old`: every
non-overlapping occurrence of `old`, scanned left to right, is replaced by
`new`.  This equals joining the `old`-split segments with `new`. -/
def pyReplace (s old new : String) : String :=
  String.intercalate new (pySplitOn s old)

/-- Models Python `s.split()` restricted to space-separated tokens (the
whitespace the recipe fragments in question use): the non-empty tokens of
`s`. -/
def pySplit (s : String) : List String :=
  (pySplitOn s " ").filter (fun w => w ≠ "")

/-- Models Python `s.split()[0]`: the first whitespace-token of `s`, or
`none` where Python would raise `IndexError` (no tokens). -/
def pyFirstWord (s : String) : Option String :=
  (pySplit s)[0]?

/-- Models Python slicing `s[:-n]`: the string without its last `n`
characters (empty when `s` is shorter than `n`). -/
def pyDropRight (s : String) (n : Nat) : String :=
  String.mk (s.toList.take (s.toList.length - n))

/-- Models Python `s.endswith(suffix)`. -/
def pyEndswith (s suffix : String) : Bool :=
  suffix.toList.isSuffixOf s.toList

/-- The `patch_tuple` namedtuple (line 99): a success flag together with the
payload (on success) or a diagnostic message (on failure). -/
structure patch_tuple where
  success : Bool
  data : String
  deriving DecidableEq

/-- The `basic_patch` function (lines 361-375).  For each entry of
`replace_dict` (key, old value, new value), in iteration order, the old value
is looked up in `text` with `text.find(old) < 0`; the first absent old value
yields a failure naming its key.  The substitution statement at line 373 is
unreachable in the source — it stands after the `return` inside the `if`
block — so when every old value is present the function returns success with
the text unchanged.  The base64 encoding of the payload (line 375, transport
boundary) is elided: the `data` field carries the raw text.  The new values
are never read by any reachable statement, so their type is a parameter. -/
def basic_patch {α : Type} (text : String) (replace_dict : List (String × String × α)) :
    patch_tuple :=
  match replace_dict.find? (fun kv => !(pyFindFound text kv.2.1)) with
  | some kv => ⟨false, "Couldn\x27t find current " ++ kv.1 ++ " in meta.yaml"⟩
  | none => ⟨true, text⟩

/-- A concrete recipe fragment whose old version and checksum occur exactly
once each. -/
def demoText1 : String :=
  "package:\n  version: 1.2.3\nsource:\n  sha256: abc123\n"

/-- The replacement mapping the orchestrator would build for `demoText1`:
version 1.2.3 to 1.3.0, checksum abc123 to def456. -/
def demoReplaceDict1 : List (String × String × String) :=
  [("version", "1.2.3", "1.3.0"), ("sha", "abc123", "def456")]

/-- A replacement mapping whose old version value does not occur in
`demoText1`. -/
def demoReplaceDict4 : List (String × String × String) :=
  [("version", "9.9.9", "1.3.0")]

/-- C1: the claim states that when every old value occurs in the text,
`basic_patch` succeeds and the payload is the input with every old value
replaced by its new value.  The code violates this: the replace statement is
dead code, so on the concrete input below the result is success with the
*original* text — the old version string still occurs in the payload and the
new one does not. -/
theorem basic_patch_returns_unsubstituted_text :
    basic_patch demoText1 demoReplaceDict1 = ⟨true, demoText1⟩
    ∧ pyFindFound demoText1 "1.2.3" = true
    ∧ pyFindFound demoText1 "1.3.0" = false
    ∧ pyFindFound demoText1 "abc123" = true
    ∧ pyFindFound demoText1 "def456" = false := by
  decide

/-- C4: if some entry's old value does not occur in the text, `basic_patch`
fails with a diagnostic naming a key whose old value is absent; the failure
result carries no text at all, so no partial substitution is observable. -/
theorem basic_patch_missing_field_fails (text : String)
    (rd : List (String × String × String))
    (h : ∃ kv ∈ rd, pyFindFound text kv.2.1 = false) :
    ∃ kv ∈ rd, pyFindFound text kv.2.1 = false ∧
      basic_patch text rd =
        ⟨false, "Couldn\x27t find current " ++ kv.1 ++ " in meta.yaml"⟩ := by
  have hsome : (rd.find? (fun kv => !(pyFindFound text kv.2.1))).isSome := by
    rw [List.find?_isSome]
    obtain ⟨kv, hmem, hkv⟩ := h
    exact ⟨kv, hmem, by simp [hkv]⟩
  obtain ⟨kv0, hfind⟩ := Option.isSome_iff_exists.mp hsome
  refine ⟨kv0, List.mem_of_find?_eq_some hfind, ?_, ?_⟩
  · have := List.find?_some hfind
    simpa using this
  · simp [basic_patch, hfind]

/-- Witness for C4 at a concrete input: the old value 9.9.9 is absent from
`demoText1`, so the patch engine fails naming the version field. -/
theorem basic_patch_missing_field_fails_witness :
    ∃ kv ∈ demoReplaceDict4, pyFindFound demoText1 kv.2.1 = false ∧
      basic_patch demoText1 demoReplaceDict4 =
        ⟨false, "Couldn\x27t find current " ++ kv.1 ++ " in meta.yaml"⟩ :=
  basic_patch_missing_field_fails demoText1 demoReplaceDict4
    ⟨("version", "9.9.9", "1.3.0"), by decide, by decide⟩

/-- One release entry of the PyPI legacy JSON index, restricted to what the
script reads: the `filename` field and the `digests` mapping (`none` models a
release entry with no `digests` key, where Python would raise `KeyError`). -/
structure PypiRelease where
  filename : String
  digests : Option (List (String × String))
  deriving DecidableEq

/-- The JSON index response, restricted to what the script reads: the HTTP
`ok` flag and the `releases` mapping from version string to release list. -/
structure PypiJsonResponse where
  ok : Bool
  releases : List (String × List PypiRelease)
  deriving DecidableEq

/-- The `pypi_legacy_json_sha` function (header at line 102, body at lines
248-273).  The HTTP GET and JSON decode are modelled by the `resp` argument;
the function then mirrors the source: `None` when the response is not ok,
when the version is absent from the release index, when no release filename
ends with the requested bundle type (`StopIteration` caught), or when the
checksum digest is absent (`KeyError` caught); otherwise the sha256 digest. -/
def pypi_legacy_json_sha (resp : PypiJsonResponse) (version bundle_type : String) :
    Option String :=
  if !resp.ok then none
  else
    match List.lookup version resp.releases with
    | none => none
    | some rels =>
      match rels.find? (fun x => pyEndswith x.filename bundle_type) with
      | none => none
      | some release =>
        match release.digests with
        | none => none
        | some d => List.lookup "sha256" d

/-- The package name derivation of `pypi_sha` (line 312):
`'-'.join(source_fn.split('-')[:-1])`. -/
def pypi_sha_package_name (source_fn : String) : String :=
  String.intercalate "-" (pySplitOn source_fn "-").dropLast

/-- The bundle type derivation of `pypi_sha` (line 313):
`source_fn.split(source_version)[-1]`. -/
def pypi_sha_bundle_type (source_fn source_version : String) : String :=
  (pySplitOn source_fn source_version).getLastD ""

/-- The `pypi_sha` function (lines 305-319).  The scrape tier
`pypi_org_sha` (lines 276-302) is itself pure network/HTML work and is
modelled by the `scrape` argument, a function of the same three parameters
the source passes to it. -/
def pypi_sha (resp : PypiJsonResponse)
    (scrape : String → String → String → Option String)
    (source_fn source_version pypi_version : String) : Option String :=
  let package_name := pypi_sha_package_name source_fn
  let bundle_type := pypi_sha_bundle_type source_fn source_version
  match pypi_legacy_json_sha resp pypi_version bundle_type with
  | some sha => some sha
  | none => scrape package_name pypi_version bundle_type

/-- C9: the JSON tier returns `none` (never raises) when the response is not
ok, the version is absent, no release filename ends with the requested
suffix, or the digest field is missing; and `pypi_sha` consults the scrape
tier exactly when the JSON tier returns `none` — when the JSON tier yields a
value the result is that value regardless of the scrape function, and when it
yields `none` the result is the scrape of the derived package name, the PyPI
version, and the derived bundle type. -/
theorem pypi_sha_fallback_exactly_on_json_none :
    (∀ resp v b, resp.ok = false → pypi_legacy_json_sha resp v b = none)
    ∧ (∀ resp v b, List.lookup v resp.releases = none →
        pypi_legacy_json_sha resp v b = none)
    ∧ (∀ resp v b rels, List.lookup v resp.releases = some rels →
        rels.find? (fun x => pyEndswith x.filename b) = none →
        pypi_legacy_json_sha resp v b = none)
    ∧ (∀ resp v b rels r, List.lookup v resp.releases = some rels →
        rels.find? (fun x => pyEndswith x.filename b) = some r →
        (r.digests = none ∨
          ∃ d, r.digests = some d ∧ List.lookup "sha256" d = none) →
        pypi_legacy_json_sha resp v b = none)
    ∧ (∀ resp scrape fn sv pv sha,
        pypi_legacy_json_sha resp pv (pypi_sha_bundle_type fn sv) = some sha →
        pypi_sha resp scrape fn sv pv = some sha)
    ∧ (∀ resp scrape fn sv pv,
        pypi_legacy_json_sha resp pv (pypi_sha_bundle_type fn sv) = none →
        pypi_sha resp scrape fn sv pv =
          scrape (pypi_sha_package_name fn) pv (pypi_sha_bundle_type fn sv)) := by
  refine ⟨?_, ?_, ?_, ?_, ?_, ?_⟩
  · intro resp v b h
    simp [pypi_legacy_json_sha, h]
  · intro resp v b h
    simp only [pypi_legacy_json_sha, h]
    split <;> simp
  · intro resp v b rels h1 h2
    simp only [pypi_legacy_json_sha, h1, h2]
    split <;> simp
  · intro resp v b rels r h1 h2 h3
    simp only [pypi_legacy_json_sha, h1, h2]
    rcases h3 with h3 | ⟨d, hd, hlk⟩
    · split <;> simp [h3]
    · split <;> simp [hd, hlk]
  · intro resp scrape fn sv pv sha h
    simp [pypi_sha, h]
  · intro resp scrape fn sv pv h
    simp [pypi_sha, h]

/-- Witness for C9 at a concrete input: a not-ok response makes the JSON tier
return `none`, and `pypi_sha` then returns exactly the scrape result. -/
theorem pypi_sha_fallback_exactly_on_json_none_witness :
    pypi_legacy_json_sha ⟨false, []⟩ "1.0" ".tar.gz" = none
    ∧ pypi_sha ⟨false, []⟩ (fun _ _ _ => some "scraped") "demo-1.0.tar.gz" "1.0" "1.0"
        = some "scraped" := by
  constructor
  · exact pypi_sha_fallback_exactly_on_json_none.1 ⟨false, []⟩ "1.0" ".tar.gz" rfl
  · have := pypi_sha_fallback_exactly_on_json_none.2.2.2.2.2
      ⟨false, []⟩ (fun _ _ _ => some "scraped") "demo-1.0.tar.gz" "1.0" "1.0"
      (by decide)
    simpa using this

/-- An update candidate as the scan phase of `tick_feedstocks` produces it
(lines 550-560): the feedstock repository name (which ends in the 10
characters "-feedstock") and the candidate's declared dependency-name set —
the leading package-name token of each requirement, as extracted by
`feedstock_status` at lines 429-431 — before the fixed exclusion. -/
structure UpdateCandidate where
  fs_name : String
  raw_reqs : Finset String
  deriving DecidableEq

/-- The dependency pruning performed by `feedstock_status` when it builds the
`status_data` (line 438): the declared names minus the interpreter and the
build tool. -/
def status_reqs (reqs : Finset String) : Finset String :=
  reqs \ {"python", "setuptools"}

/-- The batch package-name set of `tick_feedstocks` (line 562):
`x.fs.name[:-10]` for every candidate, collected into a set. -/
def package_names (batch : List UpdateCandidate) : Finset String :=
  (batch.map (fun x => pyDropRight x.fs_name 10)).toFinset

/-- The independent-subset selector of `tick_feedstocks` (lines 564-565):
the candidates whose pruned dependency set meets the batch package-name set
in fewer than one element. -/
def indep_updates (batch : List UpdateCandidate) : List UpdateCandidate :=
  batch.filter (fun x =>
    decide ((status_reqs x.raw_reqs ∩ package_names batch).card < 1))

/-- Scenario candidate A: depends on B, which is in the batch. -/
def candA : UpdateCandidate := ⟨"A-feedstock", {"B"}⟩

/-- Scenario candidate B: no dependencies. -/
def candB : UpdateCandidate := ⟨"B-feedstock", ∅⟩

/-- Scenario candidate C: depends only on Z, which is not in the batch. -/
def candC : UpdateCandidate := ⟨"C-feedstock", {"Z"}⟩

/-- C2: the selector keeps exactly the candidates whose pruned dependency set
is disjoint from the batch package-name set; on the scenario batch
A(deps B), B(no deps), C(deps Z with Z outside the batch) it returns B and C;
and a batch with zero inter-dependencies is returned whole. -/
theorem indep_updates_characterization :
    (∀ (batch : List UpdateCandidate) (x : UpdateCandidate),
        x ∈ indep_updates batch ↔
          x ∈ batch ∧ status_reqs x.raw_reqs ∩ package_names batch = ∅)
    ∧ indep_updates [candA, candB, candC] = [candB, candC]
    ∧ (∀ batch : List UpdateCandidate,
        (∀ x ∈ batch, status_reqs x.raw_reqs ∩ package_names batch = ∅) →
          indep_updates batch = batch) := by
  have hmem : ∀ (batch : List UpdateCandidate) (x : UpdateCandidate),
      x ∈ indep_updates batch ↔
        x ∈ batch ∧ status_reqs x.raw_reqs ∩ package_names batch = ∅ := by
    intro batch x
    simp [indep_updates, List.mem_filter, Nat.lt_one_iff, Finset.card_eq_zero]
  refine ⟨hmem, by decide, ?_⟩
  intro batch h
  apply List.filter_eq_self.mpr
  intro x hx
  simp [Nat.lt_one_iff, Finset.card_eq_zero, h x hx]

/-- Witness for C2 applying the characterization at the concrete scenario
batch: B is selected because its pruned dependency set is disjoint from the
batch names. -/
theorem indep_updates_characterization_witness :
    candB ∈ indep_updates [candA, candB, candC] :=
  (indep_updates_characterization.1 [candA, candB, candC] candB).mpr
    ⟨by decide, by decide⟩

/-- The per-candidate update data `tick_feedstocks` reads out of a selected
candidate (lines 573-586): the raw recipe text, the current version and
sha256 strings from the parsed YAML, and the new upstream version. -/
structure UpdateData where
  text : String
  version : String
  sha256 : String
  pypi_version : String
  deriving DecidableEq

/-- The observable outcome of one iteration of the update loop for one
candidate: whether the checksum-unavailable error was recorded, the computed
patch, and whether the pipeline proceeds to the external fork/write step. -/
structure CandResult where
  sha_error_recorded : Bool
  patch : patch_tuple
  proceeds_to_write : Bool
  deriving DecidableEq

/-- One iteration of the update loop of `tick_feedstocks` (lines 571-595,
with `dry_run = false`; the external fork and HTTP write are abstracted to
whether the pipeline reaches them).  `new_sha` is the `pypi_sha` result for
this candidate.  When it is `None` the error is recorded (line 577) but —
there being no `continue` after line 578 — the body falls through: the patch
is still computed, with `None` standing as the new sha value, and on patch
success the candidate still proceeds to the fork/write steps. -/
def process_candidate (new_sha : Option String) (u : UpdateData) : CandResult :=
  let shaErr := new_sha.isNone
  let patch := basic_patch u.text
    [("version", u.version, some u.pypi_version), ("sha", u.sha256, new_sha)]
  if patch.success then ⟨shaErr, patch, true⟩ else ⟨shaErr, patch, false⟩

/-- The update data of a candidate whose old values occur in its text. -/
def demoUpdate3 : UpdateData := ⟨demoText1, "1.2.3", "abc123", "1.3.0"⟩

/-- C3: the claim states that a candidate whose checksum resolution returns
`None` is recorded under the checksum-unavailable error and skipped entirely,
with no patch computed or applied.  The code violates this: with `new_sha =
None` on the concrete candidate below, the error is recorded, yet the patch
is still computed (and, the old values being present, reported successful)
and the candidate proceeds to the external write. -/
theorem sha_none_candidate_not_skipped :
    process_candidate none demoUpdate3 =
      ⟨true, ⟨true, demoText1⟩, true⟩ := by
  decide

/-- The Python exceptions the recipe-model methods can raise. -/
inductive PyError where
  | keyError (key : String)
  | valueError
  | attributeError (attr : String)
  | indexError
  deriving DecidableEq

/-- The rendered structure `yaml.load(Template(text).render(), BaseLoader)`
produces, restricted to the sections the script reads.  Each section is an
association list from key to scalar string (`BaseLoader` yields strings);
`requirements` maps a build step to its list of requirement strings.  The
top-level sections are fields of the structure: every claim below concerns
recipes in which these sections are present. -/
structure MetaYamlDict where
  package : List (String × String)
  source : List (String × String)
  build : List (String × String)
  requirements : List (String × List String)
  deriving DecidableEq

/-- The `jinja_var` namedtuple filled at line 159: the variable's value and
the verbatim matched defining statement. -/
structure JinjaVar where
  value : String
  string : String
  deriving DecidableEq

/-- Modelled from the spec: the template-variable assignment scan of the
Recipe Model.  The regular expression `jinja_set_regex` and the namedtuple
constructor `jinja_var` are referenced at lines 154-159 but are not defined
in the source tree; per spec §3/§4.1 the scan "captures every template
variable assignment (name → its literal defining statement, verbatim, so it
can be used as a find-target for a patch)".  It is modelled here as: every
occurrence of a Jinja set-statement `{% set NAME = VALUE %}` in the raw
text yields the pair NAME ↦ (VALUE, verbatim statement). -/
def jinja_set_scan (text : String) : List (String × JinjaVar) :=
  ((pySplitOn text "\x7b% set ").drop 1).filterMap (fun chunk =>
    match pySplitOn chunk " %\x7d" with
    | body :: _ :: _ =>
      match pySplitOn body " = " with
      | name :: value :: _ =>
        some (name, ⟨value, "\x7b% set " ++ body ++ " %\x7d"⟩)
      | _ => none
    | _ => none)

/-- Models Python `s.strip()` restricted to spaces. -/
def pyStrip (s : String) : String :=
  String.mk (((s.toList.dropWhile (· = ' ')).reverse.dropWhile (· = ' ')).reverse)

/-- Modelled from the spec: the structured-field-to-variable reference scan
of the Recipe Model.  The regular expression `yaml_jinja_assign_regex` is
referenced at lines 161-164 but is not defined in the source tree; per spec
§3/§4.1 the scan "captures every structured-field-to-variable reference
assignment".  It is modelled here as: every line of the shape
`KEY: {{ NAME }}` yields the pair KEY (trimmed) ↦ the verbatim
interpolation expression assigned to it. -/
def yaml_jinja_assign_scan (text : String) : List (String × String) :=
  (pySplitOn text "\n").filterMap (fun line =>
    match pySplitOn line ": " with
    | [k, vexp] =>
      if "\x7b\x7b".toList.isPrefixOf vexp.toList && pyEndswith vexp "\x7d\x7d" then
        some (pyStrip k, vexp)
      else none
    | _ => none)

/-- The `Feedstock_Meta_Yaml` instance state after a successful
`_parse_text`: raw text, rendered dictionary, and the derived fields set at
lines 138-164. -/
structure FeedstockMetaYaml where
  _text : String
  _yaml_dict : MetaYamlDict
  checksum_type : String
  pypi_package : String
  bundle_type : String
  reqs : Finset String
  jinja_vars : List (String × JinjaVar)
  yaml_jinja_refs : List (String × String)
  deriving DecidableEq

/-- The requirement strings across all steps of the requirements mapping, as
iterated by the loop at lines 149-152 (the result is collected into a set,
so the iteration order is immaterial). -/
def requirementEntries (requirements : List (String × List String)) : List String :=
  requirements.foldr (fun step acc => step.2 ++ acc) []

/-- The `_parse_text` body of `Feedstock_Meta_Yaml` (lines 112-164) combined
with `__init__` (lines 166-171).  The `yaml.load(Template(text).render())`
step (lines 116-131, external Jinja/YAML libraries, including the
RECIPE_DIR-erasing retry) is modelled by the `d` argument: the structured
result of rendering `text`.  The body then mirrors the source: required-key
checks for [package][version] and [source][fn] (lines 133-136), checksum
kind selection with sha256 before md5 (lines 138-143), the archive-name
split on `-<version>.` whose unpacking into exactly two parts raises
`ValueError` otherwise (lines 145-147), the requirement first-word set
(lines 149-152, `IndexError` on a requirement with no tokens), and the two
raw-text scans (lines 154-164). -/
def parse_text (text : String) (d : MetaYamlDict) :
    Except PyError FeedstockMetaYaml :=
  match List.lookup "version" d.package with
  | none => .error (.keyError "Missing meta.yaml key: [package][version]")
  | some version =>
    match List.lookup "fn" d.source with
    | none => .error (.keyError "Missing meta.yaml key: [source][fn]")
    | some fn =>
      match
        (if (List.lookup "sha256" d.source).isSome then some "sha256"
         else if (List.lookup "md5" d.source).isSome then some "md5"
         else none) with
      | none => .error (.keyError "Missing meta.yam key for checksum")
      | some checksum_type =>
        match pySplitOn fn ("-" ++ version ++ ".") with
        | [pypi_package, bundle_type] =>
          match (requirementEntries d.requirements).mapM pyFirstWord with
          | none => .error .indexError
          | some names =>
            .ok { _text := text, _yaml_dict := d,
                  checksum_type := checksum_type,
                  pypi_package := pypi_package,
                  bundle_type := bundle_type,
                  reqs := names.toFinset,
                  jinja_vars := jinja_set_scan text,
                  yaml_jinja_refs := yaml_jinja_assign_scan text }
        | _ => .error .valueError

/-- The `build` accessor (lines 173-178): it returns
`str(self._yaml_dict['package']['number'])` — note the `package` section —
and raises `KeyError` when that key is absent.  `str` is the identity here
since `BaseLoader` yields strings. -/
def build (m : FeedstockMetaYaml) : Except PyError String :=
  match List.lookup "number" m._yaml_dict.package with
  | none => .error (.keyError "number")
  | some v => .ok v

/-- The `version` accessor (lines 180-186):
`self._yaml_dict['package']['version']`. -/
def version_accessor (m : FeedstockMetaYaml) : Except PyError String :=
  match List.lookup "version" m._yaml_dict.package with
  | none => .error (.keyError "version")
  | some v => .ok v

/-- The `checksum` accessor (lines 188-194):
`self._yaml_dict['source'][self.checksum_type]`. -/
def checksum_accessor (m : FeedstockMetaYaml) : Except PyError String :=
  match List.lookup m.checksum_type m._yaml_dict.source with
  | none => .error (.keyError m.checksum_type)
  | some v => .ok v

/-- Insertion of a string into a sorted list, the worker for modelling
Python `sorted`. -/
def insertSorted (x : String) : List String → List String
  | [] => [x]
  | y :: ys => if x ≤ y then x :: y :: ys else y :: insertSorted x ys

/-- Models Python `sorted` on a list of strings (insertion sort over the
lexicographic order). -/
def sortStrings : List String → List String
  | [] => []
  | x :: xs => insertSorted x (sortStrings xs)

/-- The `find_replace_update` method (lines 196-204): each mapping key,
taken in sorted order, is replaced by its value in the raw text, and the new
text is then fully re-parsed.  The rendering of the new text is the `render`
argument (same modelling as in `parse_text`). -/
def find_replace_update (render : String → MetaYamlDict)
    (m : FeedstockMetaYaml) (mapping : List (String × String)) :
    Except PyError FeedstockMetaYaml :=
  let text := (sortStrings (mapping.map Prod.fst)).foldl
    (fun t k => pyReplace t k ((List.lookup k mapping).getD "")) m._text
  parse_text text (render text)

/-- The `set_build_number` method (lines 206-239).  The no-change test at
line 212 compares `str(new_number)` with `_yaml_dict['build']['number']` and
returns `True` without touching anything.  On the indirected branch (lines
216-222) the replacement value is built with
`'{% set {} = {} %}'.format(build_var, new_number)`: the literal braces are
not doubled, so `str.format` parses `%` as a field name, hits the nested
brace and raises `ValueError` — after `yaml_jinja_refs['number'].split()[1]`
and the `jinja_vars[build_var]` lookup, which can themselves raise
`IndexError`/`KeyError`.  On the literal branch (lines 223-236) line 226
reads `self.text`, but the attribute is named `_text`, so `AttributeError`
is raised before the multiplicity check; the ambiguity refusal
(`return False`, line 230) is unreachable.  Consequently
`find_replace_update` (line 238) is never reached on any mutating path. -/
def set_build_number (m : FeedstockMetaYaml) (new_number : Nat) :
    Except PyError (Bool × FeedstockMetaYaml) :=
  match List.lookup "number" m._yaml_dict.build with
  | none => .error (.keyError "number")
  | some cur =>
    if toString new_number = cur then
      .ok (true, m)
    else
      match List.lookup "number" m.yaml_jinja_refs with
      | some ref =>
        match (pySplit ref)[1]? with
        | none => .error .indexError
        | some build_var =>
          match List.lookup build_var m.jinja_vars with
          | none => .error (.keyError build_var)
          | some _ => .error .valueError
      | none => .error (.attributeError "text")

/-- Decidable equality for `Except`, so that concrete method results can be
checked by `decide`. -/
instance {ε α : Type} [DecidableEq ε] [DecidableEq α] : DecidableEq (Except ε α) :=
  fun x y =>
    match x, y with
    | .error a, .error b =>
      if h : a = b then isTrue (congrArg Except.error h)
      else isFalse (fun he => h (by injection he))
    | .ok a, .ok b =>
      if h : a = b then isTrue (congrArg Except.ok h)
      else isFalse (fun he => h (by injection he))
    | .error _, .ok _ => isFalse (fun he => by injection he)
    | .ok _, .error _ => isFalse (fun he => by injection he)

/-- A recipe text whose build number is indirected through the template
variable `build`: it contains the defining statement and the field
reference line. -/
def demoText5 : String :=
  "\x7b% set build = 0 %\x7d\npackage:\n  version: 1.0\nbuild:\n  number: \x7b\x7b build \x7d\x7d\n"

/-- The rendered structure of `demoText5` (Jinja renders the reference to
the variable's value 0). -/
def demoDict5 : MetaYamlDict :=
  ⟨[("name", "demo"), ("version", "1.0")],
   [("fn", "demo-1.0.tar.gz"), ("sha256", "abc")],
   [("number", "0")], []⟩

/-- C5: the claim states that with the build-number field indirected through
a template variable, a successful `set_build_number(new)` substitutes the
variable's defining statement and re-parses.  The code violates this: on the
concrete indirected model below (the scans do find the reference and the
defining statement), `set_build_number 1` raises `ValueError` from the
single-braced format string before any substitution, so no text is patched
and no re-parse happens. -/
theorem set_build_number_indirection_raises :
    (parse_text demoText5 demoDict5).map
        (fun m => List.lookup "number" m.yaml_jinja_refs)
      = .ok (some "\x7b\x7b build \x7d\x7d")
    ∧ (parse_text demoText5 demoDict5).map
        (fun m => (List.lookup "build" m.jinja_vars).map JinjaVar.string)
      = .ok (some "\x7b% set build = 0 %\x7d")
    ∧ (parse_text demoText5 demoDict5).map (fun m => set_build_number m 1)
      = .ok (.error .valueError) := by
  decide

/-- A recipe text with the literal pattern `number: 0` occurring twice and
no template-variable indirection. -/
def demoText6 : String :=
  "package:\n  version: 1.0\nbuild:\n  number: 0\noutputs:\n  number: 0\n"

/-- The rendered structure of `demoText6`. -/
def demoDict6 : MetaYamlDict :=
  ⟨[("name", "demo"), ("version", "1.0")],
   [("fn", "demo-1.0.tar.gz"), ("sha256", "abc")],
   [("number", "0")], []⟩

/-- C6: the claim states that with a literal build-number field whose
pattern recurs more than once, `set_build_number` returns failure and leaves
the text unchanged.  The code violates this: on the concrete model below
(two occurrences of `number: 0`, no indirection), line 226 reads
`self.text` — the attribute is named `_text` — so `AttributeError` is raised
before the multiplicity check ever runs; the refusal `return False` at line
230 is unreachable. -/
theorem set_build_number_literal_duplicate_raises :
    (pySplitOn demoText6 "number: 0").length = 3
    ∧ (parse_text demoText6 demoDict6).map (fun m => m.yaml_jinja_refs)
      = .ok []
    ∧ (parse_text demoText6 demoDict6).map (fun m => set_build_number m 1)
      = .ok (.error (.attributeError "text")) := by
  decide

/-- C7: if the currently rendered build number already equals the requested
number, `set_build_number` returns success with the model unchanged; and
whenever a call returns success, calling again with the same number returns
success with no change — the only successful path is the no-op path, so two
successive calls with the same argument are idempotent. -/
theorem set_build_number_idempotent (m : FeedstockMetaYaml) (n : Nat) :
    (List.lookup "number" m._yaml_dict.build = some (toString n) →
      set_build_number m n = .ok (true, m))
    ∧ (∀ b m', set_build_number m n = .ok (b, m') →
      set_build_number m' n = .ok (true, m')) := by
  constructor
  · intro h
    simp [set_build_number, h]
  · intro b m' h
    rcases hlk : List.lookup "number" m._yaml_dict.build with _ | cur
    · simp only [set_build_number, hlk] at h
      exact Except.noConfusion h
    · simp only [set_build_number, hlk] at h
      by_cases hc : toString n = cur
      · rw [if_pos hc] at h
        have hbm : true = b ∧ m = m' := by simpa using h
        obtain ⟨hb, hm⟩ := hbm
        subst hb
        subst hm
        simp only [set_build_number, hlk, if_pos hc]
      · rw [if_neg hc] at h
        rcases h2 : List.lookup "number" m.yaml_jinja_refs with _ | ref
        · simp only [h2] at h
          exact Except.noConfusion h
        · simp only [h2] at h
          rcases h3 : (pySplit ref)[1]? with _ | bv
          · simp only [h3] at h
            exact Except.noConfusion h
          · simp only [h3] at h
            rcases h4 : List.lookup bv m.jinja_vars with _ | jv
            · simp only [h4] at h
              exact Except.noConfusion h
            · simp only [h4] at h
              exact Except.noConfusion h

/-- A model whose rendered build number is already 1. -/
def demoModel7 : FeedstockMetaYaml :=
  { _text := "build:\n  number: 1\n",
    _yaml_dict := ⟨[("name", "demo"), ("version", "1.0")],
                   [("fn", "demo-1.0.tar.gz"), ("sha256", "abc")],
                   [("number", "1")], []⟩,
    checksum_type := "sha256", pypi_package := "demo", bundle_type := "tar.gz",
    reqs := ∅, jinja_vars := [], yaml_jinja_refs := [] }

/-- Witness for C7: the second of two successive `set_build_number 1` calls
on a model whose build number is already 1 returns success with no change. -/
theorem set_build_number_idempotent_witness :
    set_build_number demoModel7 1 = .ok (true, demoModel7) :=
  (set_build_number_idempotent demoModel7 1).2 true demoModel7
    ((set_build_number_idempotent demoModel7 1).1 (by decide))

/-- A plain recipe text with a literal build number 1 in the build section
and no `number` key in the package section. -/
def demoText8 : String :=
  "package:\n  name: demo\n  version: 1.0\nbuild:\n  number: 1\n"

/-- The rendered structure of `demoText8`. -/
def demoDict8 : MetaYamlDict :=
  ⟨[("name", "demo"), ("version", "1.0")],
   [("fn", "demo-1.0.tar.gz"), ("sha256", "abc")],
   [("number", "1")], [("run", ["python"])]⟩

/-- C8: the claim states that the `build` accessor returns the build number
declared in the rendered structure, as `version()` and `checksum()` do for
their fields.  The code violates this: `build` reads
`_yaml_dict['package']['number']` instead of the build section that
`set_build_number` itself reads (line 212).  On the constructed model below
the rendered build number is 1, `version` and `checksum` return their
fields, yet `build` raises `KeyError`. -/
theorem build_accessor_reads_package_section :
    (parse_text demoText8 demoDict8).map
        (fun m => (List.lookup "number" m._yaml_dict.build,
                   build m, version_accessor m, checksum_accessor m))
      = .ok (some "1", .error (.keyError "number"), .ok "1.0", .ok "abc") := by
  decide

/-- A recipe text whose source section declares both checksum kinds. -/
def demoText10 : String :=
  "package:\n  version: 1.0\nsource:\n  sha256: abc\n  md5: def\n"

/-- A rendered structure declaring both a sha256 and an md5 checksum. -/
def demoDict10 : MetaYamlDict :=
  ⟨[("name", "demo"), ("version", "1.0")],
   [("fn", "demo-1.0.tar.gz"), ("sha256", "abc"), ("md5", "def")],
   [("number", "0")], [("run", ["python"])]⟩

/-- C10: when the source section declares both a sha256 and an md5 checksum
(and the remaining construction requirements hold: version and archive name
present, the archive name splitting into exactly two parts around the
version, every requirement having a leading token), construction succeeds
and the checksum kind is sha256 — sha256 takes precedence; and when both
checksum fields are absent, construction fails with the checksum parse
error. -/
theorem parse_text_checksum_sha256_precedence (text : String) (d : MetaYamlDict)
    (v fn p b : String) (names : List String)
    (hv : List.lookup "version" d.package = some v)
    (hfn : List.lookup "fn" d.source = some fn)
    (hsplit : pySplitOn fn ("-" ++ v ++ ".") = [p, b])
    (hreq : (requirementEntries d.requirements).mapM pyFirstWord = some names) :
    ((List.lookup "sha256" d.source).isSome →
        (List.lookup "md5" d.source).isSome →
        ∃ m, parse_text text d = .ok m ∧ m.checksum_type = "sha256")
    ∧ (List.lookup "sha256" d.source = none →
        List.lookup "md5" d.source = none →
        parse_text text d = .error (.keyError "Missing meta.yam key for checksum")) := by
  constructor
  · intro hsha _
    refine ⟨{ _text := text, _yaml_dict := d, checksum_type := "sha256",
              pypi_package := p, bundle_type := b, reqs := names.toFinset,
              jinja_vars := jinja_set_scan text,
              yaml_jinja_refs := yaml_jinja_assign_scan text }, ?_, rfl⟩
    simp only [parse_text, hv, hfn, hsplit, hreq]
    simp [hsha]
  · intro hsha hmd5
    simp [parse_text, hv, hfn, hsha, hmd5]

/-- Witness for C10: the concrete dictionary declaring both checksum kinds
constructs successfully with checksum kind sha256. -/
theorem parse_text_checksum_sha256_precedence_witness :
    ∃ m, parse_text demoText10 demoDict10 = .ok m ∧ m.checksum_type = "sha256" :=
  (parse_text_checksum_sha256_precedence demoText10 demoDict10 "1.0"
      "demo-1.0.tar.gz" "demo" "tar.gz" ["python"]
      (by decide) (by decide) (by decide) (by decide)).1 (by decide) (by decide)
